import Mathlib

/-!
Verification development for the per-user WhatsApp session manager and store.

The definitions below are a shallow embedding of the repository's core:

* `src/storage/store.go` — the per-user durable store (`sanitizeUserId`,
  `LoadUser`, `SaveUser`, `PushToUserMessage`, `IncrementStatUser`,
  `ClearUserBotData`, `RegisterWebhook`, `UnregisterWebhook`).  The file
  system is modelled as a map from sanitized user id to file content; each
  operation additionally returns the list of file accesses it performed.
* `src/whatsapp/client.go` — the per-user session state machine
  (`ClientState`, `eventHandler`, `Initialize`, `Disconnect`) and the
  outbound command handlers (`SendMessage`, `SendGroupMessage`, `GetGroups`,
  `JoinGroup`, `LeaveGroup`, `AddToGroup`).  External protocol calls are
  modelled by outcome parameters; the session fields mirror `ClientState`.
* `src/routes/hooks.js` — the webhook register route.
* the `/api/reconnect` handler of the Go HTTP server (main.go).

Machine integers in the source are Go `int` counters that are only ever
incremented from zero, so they are modelled as `Nat`.
-/

set_option maxRecDepth 16000

namespace WABot

/-- Characters accepted by `sanitizeUserId` in `src/storage/store.go`
(regexp `[^a-zA-Z0-9\-]` removes everything else). -/
def allowedChar (c : Char) : Bool :=
  (decide ('a' ≤ c) && decide (c ≤ 'z')) ||
  (decide ('A' ≤ c) && decide (c ≤ 'Z')) ||
  (decide ('0' ≤ c) && decide (c ≤ '9')) ||
  decide (c = '-')

/-- Model of `re.ReplaceAllString(userId, "")` for the regexp `[^a-zA-Z0-9\-]`:
drops every character outside `[A-Za-z0-9-]`. -/
def cleanId (s : String) : String :=
  String.mk (s.data.filter allowedChar)

/-- Model of `sanitizeUserId` (store.go lines 52-59): returns the cleaned id, or an
error (modelled as `none`) when cleaning changed the string or it is empty. -/
def sanitizeUserId (s : String) : Option String :=
  if cleanId s = s ∧ cleanId s ≠ "" then some (cleanId s) else none

/-- The normalized message record built by the Go client (client.go); the JSON
keys `from` and `to` are modelled by the fields `fromAddr` and `toAddr`, and
the JSON key `type` (the spec calls it `direction`) by the field `type`. -/
structure MsgData where
  id : String
  fromAddr : String
  toAddr : String
  body : String
  timestamp : String
  type : String
  contactName : String
  isGroup : Bool
  groupName : Option String
  deriving DecidableEq, Repr

/-- Model of `UserStats` (store.go lines 76-81). -/
structure UserStats where
  messagesSent : Nat
  messagesReceived : Nat
  groupsJoined : Nat
  groupsLeft : Nat
  deriving DecidableEq, Repr

/-- The webhook registration record built by `src/routes/hooks.js`. -/
structure Webhook where
  id : String
  url : String
  name : String
  createdAt : String
  deriving DecidableEq, Repr

/-- Model of `UserData` (store.go lines 84-89) as it exists in memory after
`LoadUser`: the slices are never nil there, so plain lists.  Group cache
entries are opaque payloads, modelled as strings. -/
structure UserData where
  messages : List MsgData
  groups : List String
  webhooks : List Webhook
  stats : UserStats
  deriving DecidableEq, Repr

/-- Model of `UserData` as decoded from JSON, where each slice may be null
(`nil` in Go) — `LoadUser` replaces nil slices with empty ones. -/
structure RawUserData where
  messages : Option (List MsgData)
  groups : Option (List String)
  webhooks : Option (List Webhook)
  stats : UserStats
  deriving DecidableEq, Repr

/-- Content of a user's `data.json`: absent, unreadable (`os.ReadFile`
fails), unparsable (`json.Unmarshal` fails), or good JSON. -/
inductive FileContent where
  | missing
  | unreadable
  | corrupt
  | good (raw : RawUserData)
  deriving DecidableEq, Repr

/-- The file system, keyed by sanitized user id. -/
def FS := String → FileContent

/-- A file access performed by a store operation, for the given user id. -/
inductive Access where
  | read (id : String)
  | write (id : String)
  deriving DecidableEq, Repr

/-- Write one user file. -/
def setFile (fs : FS) (k : String) (v : FileContent) : FS :=
  fun k2 => if k2 = k then v else fs k2

/-- Model of `DefaultUserData` (store.go lines 91-96): empty slices, zero counters. -/
def DefaultUserData : UserData := ⟨[], [], [], ⟨0, 0, 0, 0⟩⟩

/-- The nil-slice fix-up performed at the end of `LoadUser`
(store.go lines 196-205). -/
def normalizeRaw (r : RawUserData) : UserData :=
  ⟨r.messages.getD [], r.groups.getD [], r.webhooks.getD [], r.stats⟩

/-- JSON marshalling of an in-memory record by `SaveUser`. -/
def rawOf (d : UserData) : RawUserData :=
  ⟨some d.messages, some d.groups, some d.webhooks, d.stats⟩

/-- Model of `LoadUser` (store.go lines 166-208).  Invalid ids return the default
record without touching the file system; a missing file is initialised with
the default content (`InitUser`); unreadable or unparsable files yield the
default record; good files are decoded and nil slices replaced. -/
def LoadUser (userId : String) (fs : FS) : UserData × FS × List Access :=
  match sanitizeUserId userId with
  | none => (DefaultUserData, fs, [])
  | some safeId =>
    match fs safeId with
    | FileContent.missing =>
        (DefaultUserData, setFile fs safeId (FileContent.good (rawOf DefaultUserData)),
          [Access.write safeId])
    | FileContent.unreadable => (DefaultUserData, fs, [Access.read safeId])
    | FileContent.corrupt => (DefaultUserData, fs, [Access.read safeId])
    | FileContent.good r => (normalizeRaw r, fs, [Access.read safeId])

/-- Model of `SaveUser` (store.go lines 210-225): invalid ids are rejected without
any file access, otherwise the record is marshalled and written. -/
def SaveUser (userId : String) (d : UserData) (fs : FS) : FS × List Access :=
  match sanitizeUserId userId with
  | none => (fs, [])
  | some safeId =>
      (setFile fs safeId (FileContent.good (rawOf d)), [Access.write safeId])

/-- The message-cap step of `PushToUserMessage` (store.go lines 227-236) and
`pushTo` (db.js lines 51-60): append, then keep only the last 500 when the
list exceeds 500 entries. -/
def pushCap {α : Type} (ms : List α) (m : α) : List α :=
  if 500 < (ms ++ [m]).length then (ms ++ [m]).drop ((ms ++ [m]).length - 500)
  else ms ++ [m]

/-- The last 500 entries of a list (all of it when it is shorter). -/
def tail500 {α : Type} (l : List α) : List α := l.drop (l.length - 500)

/-- The `switch statKey` of `IncrementStatUser` (store.go lines 238-251). -/
def bumpStat (st : UserStats) (key : String) : UserStats :=
  if key = "messagesSent" then { st with messagesSent := st.messagesSent + 1 }
  else if key = "messagesReceived" then { st with messagesReceived := st.messagesReceived + 1 }
  else if key = "groupsJoined" then { st with groupsJoined := st.groupsJoined + 1 }
  else if key = "groupsLeft" then { st with groupsLeft := st.groupsLeft + 1 }
  else st

/-- Model of `PushToUserMessage` (store.go lines 227-236): load, append with cap, save. -/
def PushToUserMessage (userId : String) (m : MsgData) (fs : FS) : FS × List Access :=
  let r := LoadUser userId fs
  let r2 := SaveUser userId { r.1 with messages := pushCap r.1.messages m } r.2.1
  (r2.1, r.2.2 ++ r2.2)

/-- Model of `IncrementStatUser` (store.go lines 238-251): load, bump, save. -/
def IncrementStatUser (userId statKey : String) (fs : FS) : FS × List Access :=
  let r := LoadUser userId fs
  let r2 := SaveUser userId { r.1 with stats := bumpStat r.1.stats statKey } r.2.1
  (r2.1, r.2.2 ++ r2.2)

/-- Model of `ClearUserBotData` (store.go lines 253-259): load, empty the messages and
webhooks, zero the stats — the groups field is not touched — then save. -/
def ClearUserBotData (userId : String) (fs : FS) : FS × List Access :=
  let r := LoadUser userId fs
  let r2 := SaveUser userId
    { r.1 with messages := [], webhooks := [], stats := ⟨0, 0, 0, 0⟩ } r.2.1
  (r2.1, r.2.2 ++ r2.2)

/-- Model of `RegisterWebhook` (store.go lines 261-265): load, append, save —
no duplicate check at this layer. -/
def RegisterWebhook (userId : String) (hook : Webhook) (fs : FS) : FS × List Access :=
  let r := LoadUser userId fs
  let r2 := SaveUser userId { r.1 with webhooks := r.1.webhooks ++ [hook] } r.2.1
  (r2.1, r.2.2 ++ r2.2)

/-- Model of `UnregisterWebhook` (store.go lines 267-278): keep hooks whose id differs. -/
def UnregisterWebhook (userId hookId : String) (fs : FS) : FS × List Access :=
  let r := LoadUser userId fs
  let r2 := SaveUser userId
    { r.1 with webhooks := r.1.webhooks.filter (fun h => !(decide (h.id = hookId))) } r.2.1
  (r2.1, r.2.2 ++ r2.2)

/-- Model of `ClientInfo` (client.go lines 42-46). -/
structure ClientInfo where
  pushName : String
  phone : String
  platform : String
  deriving DecidableEq, Repr

/-- The observable fields of `ClientState` (client.go lines 32-40).  The
protocol-client handle and the pairing cancellation handle are omitted: they
are not observable through `GET /api/status`. -/
structure SessionState where
  status : String
  pairingCode : Option String
  qrCodeData : Option String
  clientInfo : Option ClientInfo
  lastError : Option String
  deriving DecidableEq, Repr

/-- The session created by `GetUserClient` on first access (client.go 76-79). -/
def initialSession : SessionState := ⟨"disconnected", none, none, none, none⟩

/-- Outcome of the external calls made by `Initialize`
(client.go lines 195-294), one constructor per control-flow path. -/
inductive InitOutcome where
  | dbError (msg : String)
  | pairingNoPhone
  | pairingConnectError (msg : String)
  | pairingPairError (msg : String)
  | pairingCodeOk (code : String)
  | qrConnectError (msg : String)
  | qrOk
  | loggedInConnectError (msg : String)
  | loggedInOk
  deriving DecidableEq, Repr

/-- The session-state effect and the returned error of `Initialize`
(client.go lines 195-294).  All paths first reset the session to
`initializing` with every transient field cleared (lines 203-212); the
second component is the function's Go return value (`some msg` for a non-nil
error).  Note that the missing-phone-number path (lines 257-261) sets the
error state but the function still returns nil. -/
def InitRun (_s : SessionState) (o : InitOutcome) : SessionState × Option String :=
  let s0 : SessionState := ⟨"initializing", none, none, none, none⟩
  match o with
  | InitOutcome.dbError msg =>
      ({ s0 with status := "error", lastError := some msg }, some msg)
  | InitOutcome.pairingNoPhone =>
      ({ s0 with
          status := "error"
          lastError := some "Phone number is required for pairing code" }, none)
  | InitOutcome.pairingConnectError msg =>
      ({ s0 with status := "error", lastError := some msg }, some msg)
  | InitOutcome.pairingPairError msg =>
      ({ s0 with status := "error", lastError := some msg }, some msg)
  | InitOutcome.pairingCodeOk code =>
      ({ s0 with status := "pairing_code", pairingCode := some code }, none)
  | InitOutcome.qrConnectError msg => (s0, some msg)
  | InitOutcome.qrOk => ({ s0 with status := "qr" }, none)
  | InitOutcome.loggedInConnectError msg =>
      ({ s0 with status := "error", lastError := some msg }, some msg)
  | InitOutcome.loggedInOk => ({ s0 with status := "ready" }, none)

/-- The QR goroutine body (client.go lines 270-279): stores the encoded QR
image; nothing else is changed. -/
def qrCodeArrived (b64 : String) (s : SessionState) : SessionState :=
  { s with qrCodeData := some b64 }

/-- The `events.Connected` handler (client.go lines 158-170): status becomes
`ready`, both credential artifacts are cleared, and the identity is set when
the device store carries an id.  `LastError` is not touched. -/
def evConnected (storeIdSet : Bool) (info : ClientInfo) (s : SessionState) : SessionState :=
  let s1 := { s with status := "ready", pairingCode := none, qrCodeData := none }
  match storeIdSet with
  | true => { s1 with clientInfo := some info }
  | false => s1

/-- The `events.Disconnected` handler (client.go lines 172-179): status
`disconnected`, artifacts and identity cleared; `LastError` is not touched. -/
def evDisconnected (s : SessionState) : SessionState :=
  { s with
      status := "disconnected"
      pairingCode := none
      qrCodeData := none
      clientInfo := none }

/-- The `events.LoggedOut` handler (client.go lines 181-185): only the status
changes to `disconnected`. -/
def evLoggedOut (s : SessionState) : SessionState :=
  { s with status := "disconnected" }

/-- The session effect of `Disconnect` (client.go lines 296-311). -/
def DisconnectSession (_s : SessionState) : SessionState :=
  ⟨"disconnected", none, none, none, none⟩

/-- At most one of the credential artifact (QR image or pairing code), the
connected identity and the last error is non-empty. -/
def atMostOne (s : SessionState) : Bool :=
  let a := s.pairingCode.isSome || s.qrCodeData.isSome
  let b := s.clientInfo.isSome
  let c := s.lastError.isSome
  (!(a && b)) && ((!(a && c)) && (!(b && c)))

/-- Model of `Disconnect` (client.go lines 296-311): resets the session and clears the
user's bot data in the store. -/
def DisconnectOp (userId : String) (s : SessionState) (fs : FS) : SessionState × FS :=
  (DisconnectSession s, (ClearUserBotData userId fs).1)

/-- Model of `events.Disconnected` including its store effect (client.go lines 172-179). -/
def DisconnectedEvent (userId : String) (s : SessionState) (fs : FS) : SessionState × FS :=
  (evDisconnected s, (ClearUserBotData userId fs).1)

/-- Model of `events.LoggedOut` including its store effect (client.go lines 181-185). -/
def LoggedOutEvent (userId : String) (s : SessionState) (fs : FS) : SessionState × FS :=
  (evLoggedOut s, (ClearUserBotData userId fs).1)

/-- The `POST /api/reconnect` handler of the Go server: it defaults the
method to `qr`, launches `Initialize` in a background goroutine and answers
success unconditionally.  The pair is (success flag, response message). -/
def reconnectRoute (method : String) : Bool × String :=
  let m := if method = "" then "qr" else method
  (true, "Reconnecting via " ++ m ++ "...")

/-- The error message returned by every outbound command when the client is
not connected (client.go). -/
def notConnectedErr : String := "WhatsApp client is not connected"

/-- JID rendering for a plain number, `types.NewJID(number, DefaultUserServer)`. -/
def jidUser (number : String) : String := number ++ "@s.whatsapp.net"

/-- Model of `SendMessage` (client.go lines 315-353).  Result components: the command
result, the file system afterwards, the file accesses, and the webhook
dispatches triggered (always none — sent messages are not fanned out).
`connected` is the `uc.Client == nil || !uc.Client.IsConnected()` guard. -/
def SendMessageOp (connected : Bool) (userId number message msgId ts : String)
    (fs : FS) : Except String MsgData × FS × List Access × List String :=
  match connected with
  | false => (Except.error notConnectedErr, fs, [], [])
  | true =>
    let m : MsgData := ⟨msgId, "me", jidUser number, message, ts, "sent", number, false, none⟩
    let r1 := PushToUserMessage userId m fs
    let r2 := IncrementStatUser userId "messagesSent" r1.1
    (Except.ok m, r2.1, r1.2 ++ r2.2, [])

/-- JID rendering for a group id, `types.NewJID(groupId, GroupServer)`. -/
def jidGroup (groupId : String) : String := groupId ++ "@g.us"

/-- Model of `SendGroupMessage` (client.go lines 355-387). -/
def SendGroupMessageOp (connected : Bool) (userId groupId message msgId ts : String)
    (fs : FS) : Except String MsgData × FS × List Access × List String :=
  match connected with
  | false => (Except.error notConnectedErr, fs, [], [])
  | true =>
    let m : MsgData :=
      ⟨msgId, "me", jidGroup groupId, message, ts, "sent", "Group", true, some groupId⟩
    let r1 := PushToUserMessage userId m fs
    let r2 := IncrementStatUser userId "messagesSent" r1.1
    (Except.ok m, r2.1, r1.2 ++ r2.2, [])

/-- One entry of the group list rendered by `GetGroups` (client.go 400-408). -/
structure GroupEntry where
  id : String
  name : String
  participantCount : Nat
  isReadOnly : Bool
  deriving DecidableEq, Repr

/-- Model of `GetGroups` (client.go lines 389-410): no store effect; the group list
comes from the protocol client (parameter `clientGroups`). -/
def GetGroupsOp (connected : Bool) (clientGroups : List GroupEntry) (fs : FS) :
    Except String (List GroupEntry) × FS × List Access :=
  match connected with
  | false => (Except.error notConnectedErr, fs, [])
  | true => (Except.ok clientGroups, fs, [])

/-- Model of `JoinGroup` (client.go lines 412-424): on external success the
`groupsJoined` counter is incremented; `res` is the protocol-client result. -/
def JoinGroupOp (connected : Bool) (res : Except String String) (userId : String)
    (fs : FS) : Except String String × FS × List Access :=
  match connected with
  | false => (Except.error notConnectedErr, fs, [])
  | true =>
    match res with
    | Except.error e => (Except.error e, fs, [])
    | Except.ok jid =>
      let r := IncrementStatUser userId "groupsJoined" fs
      (Except.ok jid, r.1, r.2)

/-- Model of `LeaveGroup` (client.go lines 426-439). -/
def LeaveGroupOp (connected : Bool) (res : Except String String) (userId : String)
    (fs : FS) : Except String String × FS × List Access :=
  match connected with
  | false => (Except.error notConnectedErr, fs, [])
  | true =>
    match res with
    | Except.error e => (Except.error e, fs, [])
    | Except.ok gid =>
      let r := IncrementStatUser userId "groupsLeft" fs
      (Except.ok gid, r.1, r.2)

/-- Model of `AddToGroup` (client.go lines 441-458): no store effect either way. -/
def AddToGroupOp (connected : Bool) (res : Except String Unit) (fs : FS) :
    Except String Unit × FS × List Access :=
  match connected with
  | false => (Except.error notConnectedErr, fs, [])
  | true => (res, fs, [])

/-- The `events.Message` handler (client.go lines 93-156): self-originated
events (`v.Info.IsFromMe`) are ignored entirely; otherwise the message is
persisted, `messagesReceived` incremented, and the payload posted to the url
of every registered webhook (the returned dispatch list). -/
def OnInboundMessage (userId : String) (fromMe : Bool) (m : MsgData) (fs : FS) :
    FS × List Access × List String :=
  match fromMe with
  | true => (fs, [], [])
  | false =>
    let r1 := PushToUserMessage userId m fs
    let r2 := IncrementStatUser userId "messagesReceived" r1.1
    let r3 := LoadUser userId r2.1
    (r3.2.1, r1.2 ++ r2.2 ++ r3.2.2, r3.1.webhooks.map (fun w => w.url))

/-- Model of `POST /api/hooks/register` (hooks.js lines 12-33): missing url is a 400,
a url already present among the user's webhooks is a 409, otherwise a new
record is appended (name defaults to the url). -/
def registerHookRoute (url name newId createdAt : String) (hooks : List Webhook) :
    Except (Nat × String) (List Webhook × Webhook) :=
  if url = "" then Except.error (400, "url is required")
  else if hooks.any (fun w => decide (w.url = url)) then
    Except.error (409, "Webhook URL already registered")
  else
    let w : Webhook := ⟨newId, url, if name = "" then url else name, createdAt⟩
    Except.ok (hooks ++ [w], w)

/-- The user's webhook list after the register route ran (unchanged on any
error response, since the route returns before `db.pushToUser`). -/
def registerHookPost (url name newId createdAt : String) (hooks : List Webhook) :
    List Webhook :=
  match registerHookRoute url name newId createdAt hooks with
  | Except.error _ => hooks
  | Except.ok r => r.1

/-- Progress of one `IncrementStatUser` call in the interleaving model: the
per-user lock is taken inside `LoadUser` and again, separately, inside
`SaveUser`, so a call is two atomic phases — `pending` (before its load),
`loaded v` (it read counter value `v`; the lock is NOT held here), `done`
(it wrote `v + 1`). -/
inductive IncTask where
  | pending
  | loaded (v : Nat)
  | done
  deriving DecidableEq, Repr

/-- Shared counter plus the per-task progress of concurrent increments. -/
structure IncSystem where
  counter : Nat
  tasks : List IncTask
  deriving DecidableEq, Repr

/-- One scheduler step: run the next atomic phase of task `i`.  A pending
task performs its locked `LoadUser` (reads the counter); a loaded task
performs its locked `SaveUser` (writes back its private value plus one). -/
def stepInc (sys : IncSystem) (i : Nat) : IncSystem :=
  match sys.tasks[i]? with
  | some IncTask.pending => { sys with tasks := sys.tasks.set i (IncTask.loaded sys.counter) }
  | some (IncTask.loaded v) => ⟨v + 1, sys.tasks.set i IncTask.done⟩
  | _ => sys

/-- Run `n` concurrent `IncrementStatUser` calls under the given schedule,
starting from a zero counter. -/
def runInc (n : Nat) (sched : List Nat) : IncSystem :=
  sched.foldl stepInc ⟨0, List.replicate n IncTask.pending⟩

/-! ## Helper lemmas about the store -/

theorem setFile_same (fs : FS) (k : String) (v : FileContent) : setFile fs k v k = v := by
  simp [setFile]

theorem normalizeRaw_rawOf (d : UserData) : normalizeRaw (rawOf d) = d := rfl

theorem loadUser_saveUser (u safe : String) (h : sanitizeUserId u = some safe)
    (d : UserData) (fs : FS) :
    LoadUser u (SaveUser u d fs).1 = (d, (SaveUser u d fs).1, [Access.read safe]) := by
  simp [LoadUser, SaveUser, h, setFile_same, normalizeRaw_rawOf]

theorem load_after_push (u safe : String) (h : sanitizeUserId u = some safe)
    (m : MsgData) (fs : FS) :
    (LoadUser u (PushToUserMessage u m fs).1).1 =
      { (LoadUser u fs).1 with messages := pushCap (LoadUser u fs).1.messages m } := by
  simp [PushToUserMessage, loadUser_saveUser u safe h]

theorem load_after_increment (u safe key : String) (h : sanitizeUserId u = some safe)
    (fs : FS) :
    (LoadUser u (IncrementStatUser u key fs).1).1 =
      { (LoadUser u fs).1 with stats := bumpStat (LoadUser u fs).1.stats key } := by
  simp [IncrementStatUser, loadUser_saveUser u safe h]

theorem load_after_clear (u safe : String) (h : sanitizeUserId u = some safe) (fs : FS) :
    (LoadUser u (ClearUserBotData u fs).1).1 =
      { (LoadUser u fs).1 with messages := [], webhooks := [], stats := ⟨0, 0, 0, 0⟩ } := by
  simp [ClearUserBotData, loadUser_saveUser u safe h]

/-! ## Helper lemmas about the message cap -/

theorem pushCap_eq_tail {α : Type} (ms : List α) (m : α) :
    pushCap ms m = tail500 (ms ++ [m]) := by
  unfold pushCap tail500
  split
  · rfl
  · next hlt =>
    have h0 : (ms ++ [m]).length - 500 = 0 := by omega
    rw [h0, List.drop_zero]

theorem pushCap_length_le {α : Type} (ms : List α) (m : α) :
    (pushCap ms m).length ≤ 500 := by
  unfold pushCap
  split
  · simp only [List.length_drop]
    omega
  · next hlt =>
    omega

theorem tail500_append {α : Type} (a b : List α) :
    tail500 (tail500 a ++ b) = tail500 (a ++ b) := by
  unfold tail500
  have hle : a.length - 500 ≤ a.length := Nat.sub_le _ _
  rw [← List.drop_append_of_le_length hle, List.drop_drop]
  congr 1
  simp only [List.length_drop, List.length_append]
  omega

theorem foldl_pushCap {α : Type} (xs : List α) :
    ∀ s0 : List α, s0.length ≤ 500 →
      List.foldl pushCap s0 xs = tail500 (s0 ++ xs) := by
  induction xs with
  | nil =>
    intro s0 h
    simp only [List.foldl_nil, List.append_nil, tail500]
    rw [Nat.sub_eq_zero_of_le h, List.drop_zero]
  | cons x xs ih =>
    intro s0 h
    simp only [List.foldl_cons]
    rw [ih (pushCap s0 x) (pushCap_length_le s0 x), pushCap_eq_tail, tail500_append,
      List.append_assoc, List.singleton_append]

/-! ## Helper lemmas about the id sanitizer -/

theorem sanitize_none_of_invalid (u : String)
    (h : u = "" ∨ u.data.any (fun c => !(allowedChar c)) = true) :
    sanitizeUserId u = none := by
  rcases h with h | h
  · subst h
    rfl
  · have hne : cleanId u ≠ u := by
      intro he
      obtain ⟨c, hc, hcp⟩ := List.any_eq_true.mp h
      have hdata : u.data.filter allowedChar = u.data := congrArg String.data he
      have hall := List.filter_eq_self.mp hdata c hc
      simp [hall] at hcp
    simp [sanitizeUserId, hne]

/-! ## Claim theorems -/

/-- Claim C1, counterexample.  The claim asserts that after every
state-machine transition at most one of the credential artifact, the
connected identity and the last error is non-empty.  This fails for the
`events.Connected` transition, because its handler (client.go lines 158-170)
never clears `LastError`: starting from the state produced by `Initialize`
when a logged-in client fails to connect (status `error`, `lastError` set —
a state satisfying the invariant), a subsequent connected event with the
device id present sets `clientInfo` while `lastError` stays set, leaving two
of the three fields non-empty. -/
theorem c1_invariant_counterexample :
    atMostOne ((InitRun initialSession
      (InitOutcome.loggedInConnectError "websocket disconnected")).1) = true ∧
    atMostOne (evConnected true ⟨"User", "254700000000", "whatsmeow"⟩
      ((InitRun initialSession
        (InitOutcome.loggedInConnectError "websocket disconnected")).1)) = false :=
  ⟨rfl, rfl⟩

/-- Claim C1, amended.  Every `Initialize` path, the `events.Disconnected`
handler, the `events.LoggedOut` handler and explicit `Disconnect` preserve
the at-most-one invariant unconditionally; the `events.Connected` handler
preserves it only when `lastError` is empty beforehand (it clears the
credential artifacts but not the error), and the QR-code callback preserves
it only when identity and error are empty beforehand (it sets the QR
artifact unconditionally). -/
theorem c1_invariant_amended (s : SessionState) (o : InitOutcome) (b64 : String)
    (si : Bool) (info : ClientInfo) (h : atMostOne s = true) :
    atMostOne (InitRun s o).1 = true ∧
    atMostOne (evDisconnected s) = true ∧
    atMostOne (evLoggedOut s) = true ∧
    atMostOne (DisconnectSession s) = true ∧
    (s.lastError = none → atMostOne (evConnected si info s) = true) ∧
    (s.clientInfo = none → s.lastError = none →
      atMostOne (qrCodeArrived b64 s) = true) := by
  obtain ⟨st, pc, qr, ci, le⟩ := s
  refine ⟨?_, ?_, ?_, ?_, ?_, ?_⟩
  · cases o <;> rfl
  · rfl
  · exact h
  · rfl
  · intro hle
    cases hle
    cases si <;> cases ci <;> rfl
  · intro hci hle
    cases hci
    cases hle
    cases pc <;> rfl

/-- Claim C1 amended, witness at a concrete run: the fresh session, a QR
initialization, and a connected event with no pending error all satisfy the
invariant. -/
theorem c1_invariant_amended_witness :
    atMostOne initialSession = true ∧
    atMostOne (InitRun initialSession InitOutcome.qrOk).1 = true ∧
    atMostOne (evConnected true ⟨"User", "254700000000", "whatsmeow"⟩
      initialSession) = true :=
  ⟨rfl,
   (c1_invariant_amended initialSession InitOutcome.qrOk "img" true
     ⟨"User", "254700000000", "whatsmeow"⟩ rfl).1,
   (c1_invariant_amended initialSession InitOutcome.qrOk "img" true
     ⟨"User", "254700000000", "whatsmeow"⟩ rfl).2.2.2.2.1 rfl⟩

/-- Claim C2 (confirmed).  Starting from any persisted message list of at
most 500 entries (in particular the empty default), any sequence of
`PushToUserMessage` appends keeps the list at no more than 500 entries, and
once more than 500 messages have been appended the list is exactly the most
recently appended 500, in arrival order.  Since `s0` ranges over every
intermediate state, the bound holds after each call of the sequence. -/
theorem c2_message_cap {α : Type} (s0 xs : List α) (h0 : s0.length ≤ 500) :
    (List.foldl pushCap s0 xs).length ≤ 500 ∧
    (500 < xs.length →
      List.foldl pushCap s0 xs = xs.drop (xs.length - 500)) := by
  constructor
  · rw [foldl_pushCap xs s0 h0]
    simp only [tail500, List.length_drop]
    omega
  · intro hx
    rw [foldl_pushCap xs s0 h0]
    simp only [tail500]
    rw [show (s0 ++ xs).length - 500 = s0.length + (xs.length - 500) by
      simp only [List.length_append]; omega]
    rw [← List.drop_drop, List.drop_left]

/-- Claim C2, witness: 501 appends onto the empty list leave exactly the
last 500 of them. -/
theorem c2_message_cap_witness :
    ([] : List Nat).length ≤ 500 ∧
    (List.foldl pushCap ([] : List Nat) (List.replicate 501 0)).length ≤ 500 ∧
    500 < (List.replicate 501 (0 : Nat)).length ∧
    List.foldl pushCap ([] : List Nat) (List.replicate 501 0) =
      (List.replicate 501 (0 : Nat)).drop ((List.replicate 501 (0 : Nat)).length - 500) :=
  ⟨by decide,
   (c2_message_cap ([] : List Nat) (List.replicate 501 0) (by decide)).1,
   by simp,
   (c2_message_cap ([] : List Nat) (List.replicate 501 0) (by decide)).2 (by simp)⟩

/-- Claim C3 (confirmed).  For a valid user id, the explicit `Disconnect`
operation and the `Disconnected` and `LoggedOut` events all reset the Store
Record through `ClearUserBotData`: afterwards the persisted messages and
webhooks are empty and all four counters are zero, while the groups cache is
exactly what it was before. -/
theorem c3_disconnect_clears_store (u safe : String) (s : SessionState) (fs : FS)
    (h : sanitizeUserId u = some safe) :
    (LoadUser u (DisconnectOp u s fs).2).1.messages = [] ∧
    (LoadUser u (DisconnectOp u s fs).2).1.webhooks = [] ∧
    (LoadUser u (DisconnectOp u s fs).2).1.stats = ⟨0, 0, 0, 0⟩ ∧
    (LoadUser u (DisconnectOp u s fs).2).1.groups = (LoadUser u fs).1.groups ∧
    (DisconnectedEvent u s fs).2 = (DisconnectOp u s fs).2 ∧
    (LoggedOutEvent u s fs).2 = (DisconnectOp u s fs).2 := by
  have hload := load_after_clear u safe h fs
  refine ⟨?_, ?_, ?_, ?_, rfl, rfl⟩ <;> simp [DisconnectOp, hload]

/-- Claim C3, witness at the user id `abc-123` on a store whose file already
holds a message, a webhook, non-zero stats and a cached group. -/
theorem c3_disconnect_clears_store_witness :
    sanitizeUserId "abc-123" = some "abc-123" ∧
    (LoadUser "abc-123" (DisconnectOp "abc-123" initialSession
      (fun _ => FileContent.good ⟨some [⟨"m", "a", "b", "hi", "t", "received", "a", false, none⟩],
        some ["group-1"], some [⟨"w", "http://h", "n", "t"⟩], ⟨3, 4, 1, 0⟩⟩)).2).1.messages = [] ∧
    (LoadUser "abc-123" (DisconnectOp "abc-123" initialSession
      (fun _ => FileContent.good ⟨some [⟨"m", "a", "b", "hi", "t", "received", "a", false, none⟩],
        some ["group-1"], some [⟨"w", "http://h", "n", "t"⟩], ⟨3, 4, 1, 0⟩⟩)).2).1.groups =
      (LoadUser "abc-123"
        (fun _ => FileContent.good ⟨some [⟨"m", "a", "b", "hi", "t", "received", "a", false, none⟩],
          some ["group-1"], some [⟨"w", "http://h", "n", "t"⟩], ⟨3, 4, 1, 0⟩⟩) : UserData × FS × List Access).1.groups :=
  ⟨by decide,
   (c3_disconnect_clears_store "abc-123" "abc-123" initialSession _ (by decide)).1,
   (c3_disconnect_clears_store "abc-123" "abc-123" initialSession _ (by decide)).2.2.2.1⟩

/-- Claim C4 (confirmed).  An id that is empty or contains a character
outside `[A-Za-z0-9-]` fails `sanitizeUserId`, and every store operation —
load, save, message append, stat increment, webhook register/unregister,
clear — returns without performing a single file read or write and leaves
the file system untouched. -/
theorem c4_invalid_id_rejected (u key hookId : String) (fs : FS) (m : MsgData)
    (d : UserData) (hook : Webhook)
    (h : u = "" ∨ u.data.any (fun c => !(allowedChar c)) = true) :
    sanitizeUserId u = none ∧
    LoadUser u fs = (DefaultUserData, fs, []) ∧
    SaveUser u d fs = (fs, []) ∧
    PushToUserMessage u m fs = (fs, []) ∧
    IncrementStatUser u key fs = (fs, []) ∧
    RegisterWebhook u hook fs = (fs, []) ∧
    UnregisterWebhook u hookId fs = (fs, []) ∧
    ClearUserBotData u fs = (fs, []) := by
  have hn := sanitize_none_of_invalid u h
  refine ⟨hn, ?_, ?_, ?_, ?_, ?_, ?_, ?_⟩ <;>
    simp [LoadUser, SaveUser, PushToUserMessage, IncrementStatUser, RegisterWebhook,
      UnregisterWebhook, ClearUserBotData, hn]

/-- Claim C4, witness at the path-traversal id `../etc`. -/
theorem c4_invalid_id_rejected_witness :
    (("../etc" : String) = "" ∨
      ("../etc" : String).data.any (fun c => !(allowedChar c)) = true) ∧
    sanitizeUserId "../etc" = none ∧
    LoadUser "../etc" (fun _ => FileContent.missing) =
      (DefaultUserData, (fun _ => FileContent.missing), []) ∧
    IncrementStatUser "../etc" "messagesSent" (fun _ => FileContent.missing) =
      ((fun _ => FileContent.missing), []) :=
  ⟨Or.inr (by decide),
   (c4_invalid_id_rejected "../etc" "messagesSent" "h1" (fun _ => FileContent.missing)
     ⟨"", "", "", "", "", "", "", false, none⟩ DefaultUserData ⟨"", "", "", ""⟩
     (Or.inr (by decide))).1,
   (c4_invalid_id_rejected "../etc" "messagesSent" "h1" (fun _ => FileContent.missing)
     ⟨"", "", "", "", "", "", "", false, none⟩ DefaultUserData ⟨"", "", "", ""⟩
     (Or.inr (by decide))).2.1,
   (c4_invalid_id_rejected "../etc" "messagesSent" "h1" (fun _ => FileContent.missing)
     ⟨"", "", "", "", "", "", "", false, none⟩ DefaultUserData ⟨"", "", "", ""⟩
     (Or.inr (by decide))).2.2.2.2.1⟩

/-- Claim C5 (confirmed).  A register request whose URL already occurs among
the user's webhooks is answered with a non-success result (HTTP 409, or 400
when the url is empty), no entry is appended, and the webhook list —
hence its cardinality — is unchanged. -/
theorem c5_duplicate_url_rejected (url name newId createdAt : String)
    (hooks : List Webhook)
    (hdup : hooks.any (fun w => decide (w.url = url)) = true) :
    (registerHookRoute url name newId createdAt hooks).isOk = false ∧
    registerHookPost url name newId createdAt hooks = hooks ∧
    (registerHookPost url name newId createdAt hooks).length = hooks.length := by
  by_cases hu : url = ""
  · refine ⟨?_, ?_, ?_⟩ <;>
      simp [registerHookRoute, registerHookPost, hu, Except.isOk, Except.toBool]
  · refine ⟨?_, ?_, ?_⟩ <;>
      simp [registerHookRoute, registerHookPost, hu, hdup, Except.isOk, Except.toBool]

/-- Claim C5, witness: re-registering `http://example.com/h` is rejected and
the single existing registration is untouched. -/
theorem c5_duplicate_url_rejected_witness :
    ([⟨"w1", "http://example.com/h", "hook", "t1"⟩] : List Webhook).any
      (fun w => decide (w.url = "http://example.com/h")) = true ∧
    (registerHookRoute "http://example.com/h" "hook2" "w2" "t2"
      [⟨"w1", "http://example.com/h", "hook", "t1"⟩]).isOk = false ∧
    registerHookPost "http://example.com/h" "hook2" "w2" "t2"
      [⟨"w1", "http://example.com/h", "hook", "t1"⟩] =
      [⟨"w1", "http://example.com/h", "hook", "t1"⟩] :=
  ⟨by decide,
   (c5_duplicate_url_rejected "http://example.com/h" "hook2" "w2" "t2"
     [⟨"w1", "http://example.com/h", "hook", "t1"⟩] (by decide)).1,
   (c5_duplicate_url_rejected "http://example.com/h" "hook2" "w2" "t2"
     [⟨"w1", "http://example.com/h", "hook", "t1"⟩] (by decide)).2.1⟩

/-- Claim C6, counterexample.  The claim says the reconnect command with
`method=pairing_code` and no phone number fails synchronously with an error
result.  In the code the missing-phone branch of `Initialize` (client.go
lines 257-261) sets the error state but falls through to `return nil`, and
the `/api/reconnect` handler launches `Initialize` in a goroutine and
answers success unconditionally: the initiating command observes no error. -/
theorem c6_pairing_no_phone_counterexample :
    (InitRun initialSession InitOutcome.pairingNoPhone).2 = none ∧
    reconnectRoute "pairing_code" = (true, "Reconnecting via pairing_code...") ∧
    (InitRun initialSession InitOutcome.pairingNoPhone).1.status = "error" :=
  ⟨rfl, rfl, rfl⟩

/-- Claim C6, amended.  A reconnect with `method=pairing_code` and no phone
number transitions the session to `error` with
`lastError = "Phone number is required for pairing code"` and sets no
credential artifact, but the command does not fail synchronously:
`Initialize` returns nil on this branch and the HTTP handler reports
success regardless. -/
theorem c6_pairing_no_phone_amended (s : SessionState) :
    (InitRun s InitOutcome.pairingNoPhone).2 = none ∧
    (InitRun s InitOutcome.pairingNoPhone).1.status = "error" ∧
    (InitRun s InitOutcome.pairingNoPhone).1.lastError =
      some "Phone number is required for pairing code" ∧
    (InitRun s InitOutcome.pairingNoPhone).1.pairingCode = none ∧
    (InitRun s InitOutcome.pairingNoPhone).1.qrCodeData = none ∧
    reconnectRoute "pairing_code" = (true, "Reconnecting via pairing_code...") :=
  ⟨rfl, rfl, rfl, rfl, rfl, rfl⟩

/-- Claim C7 (confirmed).  For a valid user id with a connected session, a
successful send-message command returns the sent-direction message record,
performs no webhook dispatch, increments `messagesSent` by exactly one and
appends the message (with the 500 cap) to the persisted list; and an inbound
event marked self-originated is ignored entirely — no store change, no file
access, no dispatch. -/
theorem c7_send_message (u safe number message msgId ts : String) (fs : FS)
    (ev : MsgData) (h : sanitizeUserId u = some safe) :
    (SendMessageOp true u number message msgId ts fs).1 =
      Except.ok ⟨msgId, "me", jidUser number, message, ts, "sent", number, false, none⟩ ∧
    (SendMessageOp true u number message msgId ts fs).2.2.2 = [] ∧
    (LoadUser u (SendMessageOp true u number message msgId ts fs).2.1).1.stats.messagesSent =
      (LoadUser u fs).1.stats.messagesSent + 1 ∧
    (LoadUser u (SendMessageOp true u number message msgId ts fs).2.1).1.messages =
      pushCap (LoadUser u fs).1.messages
        ⟨msgId, "me", jidUser number, message, ts, "sent", number, false, none⟩ ∧
    OnInboundMessage u true ev fs = (fs, [], []) := by
  have hP := load_after_push u safe h
    ⟨msgId, "me", jidUser number, message, ts, "sent", number, false, none⟩ fs
  have hI := load_after_increment u safe "messagesSent" h
    (PushToUserMessage u
      ⟨msgId, "me", jidUser number, message, ts, "sent", number, false, none⟩ fs).1
  refine ⟨rfl, rfl, ?_, ?_, rfl⟩ <;>
    (simp only [SendMessageOp]; rw [hI, hP]; try simp [bumpStat])

/-- Claim C7, witness: the spec scenario — user `abc-123` sends `hi` to
`254700000000` while connected, over an initially missing store file. -/
theorem c7_send_message_witness :
    sanitizeUserId "abc-123" = some "abc-123" ∧
    (SendMessageOp true "abc-123" "254700000000" "hi" "m1" "t1"
      (fun _ => FileContent.missing)).1 =
      Except.ok ⟨"m1", "me", jidUser "254700000000", "hi", "t1", "sent",
        "254700000000", false, none⟩ ∧
    (LoadUser "abc-123" (SendMessageOp true "abc-123" "254700000000" "hi" "m1" "t1"
      (fun _ => FileContent.missing)).2.1).1.stats.messagesSent =
      (LoadUser "abc-123" (fun _ => FileContent.missing) :
        UserData × FS × List Access).1.stats.messagesSent + 1 :=
  ⟨by decide,
   (c7_send_message "abc-123" "abc-123" "254700000000" "hi" "m1" "t1"
     (fun _ => FileContent.missing) ⟨"", "", "", "", "", "", "", false, none⟩
     (by decide)).1,
   (c7_send_message "abc-123" "abc-123" "254700000000" "hi" "m1" "t1"
     (fun _ => FileContent.missing) ⟨"", "", "", "", "", "", "", false, none⟩
     (by decide)).2.2.1⟩

/-- Claim C8 (confirmed).  Every outbound command issued while the user's
session is not connected is rejected synchronously with the descriptive
error `WhatsApp client is not connected`, performs no file access, no
webhook dispatch, and leaves the file system — hence the user's messages,
stats and webhooks — unchanged. -/
theorem c8_not_ready_rejected (u number message msgId ts groupId : String) (fs : FS)
    (gs : List GroupEntry) (res : Except String String) (resAdd : Except String Unit) :
    SendMessageOp false u number message msgId ts fs =
      (Except.error notConnectedErr, fs, [], []) ∧
    SendGroupMessageOp false u groupId message msgId ts fs =
      (Except.error notConnectedErr, fs, [], []) ∧
    GetGroupsOp false gs fs = (Except.error notConnectedErr, fs, []) ∧
    JoinGroupOp false res u fs = (Except.error notConnectedErr, fs, []) ∧
    LeaveGroupOp false res u fs = (Except.error notConnectedErr, fs, []) ∧
    AddToGroupOp false resAdd fs = (Except.error notConnectedErr, fs, []) :=
  ⟨rfl, rfl, rfl, rfl, rfl, rfl⟩

/-- Claim C9: the code loses concurrent increments.  One hundred concurrent
`IncrementStatUser` calls, scheduled so that all one hundred locked loads
complete before any locked save, all read counter value 0 and all write 1:
the final counter is 1, not 100, even though every call ran to completion.
The per-user lock is taken separately inside `LoadUser` and `SaveUser`
(store.go lines 166-225) and is not held across the load,mutate,save span of
`IncrementStatUser` (store.go lines 238-251). -/
theorem c9_lost_update :
    (runInc 100 (List.range 100 ++ List.range 100)).counter = 1 ∧
    (runInc 100 (List.range 100 ++ List.range 100)).tasks =
      List.replicate 100 IncTask.done ∧
    (runInc 100 (List.range 100 ++ List.range 100)).counter ≠ 100 := by
  refine ⟨by decide, by decide, by decide⟩

/-- Claim C10 (confirmed).  For a valid user id whose store file is missing,
unreadable, or fails to parse as JSON, `LoadUser` returns the zero-valued
default record — empty messages, groups and webhooks lists and all four
counters 0 — instead of surfacing an error. -/
theorem c10_load_defaults (u safe : String) (fs : FS)
    (hs : sanitizeUserId u = some safe)
    (hf : fs safe = FileContent.missing ∨ fs safe = FileContent.unreadable ∨
      fs safe = FileContent.corrupt) :
    (LoadUser u fs).1 = DefaultUserData := by
  rcases hf with hf | hf | hf <;> simp [LoadUser, hs, hf]

/-- Claim C10, witness: loading `abc-123` from a store whose files are all
corrupt yields the default record. -/
theorem c10_load_defaults_witness :
    sanitizeUserId "abc-123" = some "abc-123" ∧
    ((fun _ => FileContent.corrupt : FS) "abc-123" = FileContent.missing ∨
      (fun _ => FileContent.corrupt : FS) "abc-123" = FileContent.unreadable ∨
      (fun _ => FileContent.corrupt : FS) "abc-123" = FileContent.corrupt) ∧
    (LoadUser "abc-123" (fun _ => FileContent.corrupt)).1 = DefaultUserData :=
  ⟨by decide, Or.inr (Or.inr rfl),
   c10_load_defaults "abc-123" "abc-123" (fun _ => FileContent.corrupt) (by decide)
     (Or.inr (Or.inr rfl))⟩



end WABot
